import Mathlib

/-!
# TalentScout Hiring Assistant — verification of the specified core

Shallow embedding of `app.py`: the structured-response parsing used by
`generate_questions` (lines 52-60) and `estimate_skill_levels` (lines 110-114),
the candidate store writer `save_candidate` (lines 20-29), the chat input
handler `process_input` (lines 195-218) with the exit-keyword set (line 8),
the Clear Conversation handler (lines 228-231) and the Estimate Skill Levels
handler (lines 243-253).

The language-model backend is embedded as an oracle `llm : String → String`;
each handler additionally returns the list of prompts it sent to the oracle,
so "no model call occurs" is the statement that this list is empty.
-/

/-- JSON values, as produced by Python's `json.loads`: objects are modelled as
ordered association lists (Python preserves insertion order; none of our inputs
use duplicate keys). Numbers are modelled as integers — the JSON float grammar
(fractions, exponents) and `\u` string escapes are outside this model. -/
inductive Json where
  | null : Json
  | bool (b : Bool) : Json
  | num (n : Int) : Json
  | str (s : String) : Json
  | arr (xs : List Json) : Json
  | obj (kvs : List (String × Json)) : Json
deriving Repr

/-- JSON whitespace (space, tab, newline, carriage return), skipped between
tokens by `json.loads`. -/
def skipWs : List Char → List Char
  | [] => []
  | c :: cs => if c = ' ' ∨ c = '\t' ∨ c = '\n' ∨ c = '\r' then skipWs cs else c :: cs

/-- One-character JSON string escapes recognised by `json.loads`
(`\uXXXX` is outside the model). -/
def unescapeChar (c : Char) : Option Char :=
  if c = '"' ∨ c = '\\' ∨ c = '/' then some c
  else if c = 'n' then some '\n'
  else if c = 't' then some '\t'
  else if c = 'r' then some '\r'
  else if c = 'b' then some (Char.ofNat 8)
  else if c = 'f' then some (Char.ofNat 12)
  else none

/-- Body of a JSON string literal after the opening quote: collects characters
until the closing quote, resolving escapes, rejecting raw control characters
(as `json.loads` does). Returns the decoded string and the remaining input. -/
def parseStringBody (acc : List Char) : List Char → Option (String × List Char)
  | [] => none
  | c :: cs =>
    if c = '"' then some (String.mk acc.reverse, cs)
    else if c = '\\' then
      match cs with
      | [] => none
      | e :: cs2 =>
        match unescapeChar e with
        | some u => parseStringBody (u :: acc) cs2
        | none => none
    else if c.toNat < 32 then none
    else parseStringBody (c :: acc) cs

/-- Try to drop the given token from the front of `cs`, returning what
follows it. Used both to match JSON keyword literals and to cut at the
code-fence separator. -/
def dropSep : List Char → List Char → Option (List Char)
  | [], cs => some cs
  | _ :: _, [] => none
  | a :: as, c :: cs => if a = c then dropSep as cs else none

/-- Decimal value of a digit list. -/
def digitsVal (ds : List Char) : Nat :=
  ds.foldl (fun n c => n * 10 + (c.toNat - 48)) 0

/-- Digit run of a JSON integer literal: non-empty, no leading zero, and not
continued by the float grammar (`.`, `e`, `E`), which is outside the model. -/
def parseDigits (cs : List Char) : Option (Nat × List Char) :=
  let ds := cs.takeWhile Char.isDigit
  let t := cs.dropWhile Char.isDigit
  if ds.isEmpty then none
  else if ds.length > 1 ∧ ds.headD '0' = '0' then none
  else
    match t with
    | '.' :: _ => none
    | 'e' :: _ => none
    | 'E' :: _ => none
    | _ => some (digitsVal ds, t)

/-- JSON integer literal: an optional minus sign followed by digits. -/
def parseNumber (cs : List Char) : Option (Json × List Char) :=
  match cs with
  | '-' :: cs1 => (parseDigits cs1).map (fun p => (Json.num (-(Int.ofNat p.1)), p.2))
  | _ => (parseDigits cs).map (fun p => (Json.num (Int.ofNat p.1), p.2))

mutual

/-- Recursive-descent JSON value parser (fuelled for termination; `jsonDecode`
supplies enough fuel for any input). Mirrors the grammar `json.loads` accepts,
minus floats and `\u` escapes. -/
def parseValue : Nat → List Char → Option (Json × List Char)
  | 0, _ => none
  | fuel + 1, cs =>
    match skipWs cs with
    | '"' :: more =>
      match parseStringBody [] more with
      | some (s, t) => some (Json.str s, t)
      | none => none
    | '[' :: more =>
      match skipWs more with
      | ']' :: t => some (Json.arr [], t)
      | _ => parseElems fuel more []
    | '{' :: more =>
      match skipWs more with
      | '}' :: t => some (Json.obj [], t)
      | _ => parseMembers fuel more []
    | other =>
      match dropSep "null".data other with
      | some more => some (Json.null, more)
      | none =>
        match dropSep "true".data other with
        | some more => some (Json.bool true, more)
        | none =>
          match dropSep "false".data other with
          | some more => some (Json.bool false, more)
          | none => parseNumber other

/-- Comma-separated array elements up to the closing bracket. -/
def parseElems : Nat → List Char → List Json → Option (Json × List Char)
  | 0, _, _ => none
  | fuel + 1, cs, acc =>
    match parseValue fuel cs with
    | none => none
    | some (v, t1) =>
      match skipWs t1 with
      | ',' :: t2 => parseElems fuel t2 (acc ++ [v])
      | ']' :: t2 => some (Json.arr (acc ++ [v]), t2)
      | _ => none

/-- Comma-separated `"key": value` object members up to the closing brace. -/
def parseMembers : Nat → List Char → List (String × Json) → Option (Json × List Char)
  | 0, _, _ => none
  | fuel + 1, cs, acc =>
    match skipWs cs with
    | '"' :: t0 =>
      match parseStringBody [] t0 with
      | none => none
      | some (k, t1) =>
        match skipWs t1 with
        | ':' :: t2 =>
          match parseValue fuel t2 with
          | none => none
          | some (v, t3) =>
            match skipWs t3 with
            | ',' :: t4 => parseMembers fuel t4 (acc ++ [(k, v)])
            | '}' :: t4 => some (Json.obj (acc ++ [(k, v)]), t4)
            | _ => none
        | _ => none
    | _ => none

end

/-- Strict JSON decode of a whole string, as `json.loads`: one value, possibly
surrounded by whitespace; anything else fails. The fuel `2 * length + 2`
overapproximates the recursion depth (each fuel step consumes input). -/
def jsonDecode (s : String) : Option Json :=
  match parseValue (2 * s.length + 2) s.data with
  | some (j, rest) => if (skipWs rest).isEmpty then some j else none
  | none => none

/-!
## Python string primitives

`str.strip`, `str.lower` and `str.split(sep)` as used by `app.py`, modelled
structurally over the character list (ASCII whitespace and ASCII case; the
keywords and delimiters they are applied to are all ASCII).
-/

/-- Whitespace stripped by Python's `str.strip()` (ASCII part). -/
def isPySpace (c : Char) : Bool :=
  c = ' ' ∨ c = '\t' ∨ c = '\n' ∨ c = '\r' ∨ c = '\x0b' ∨ c = '\x0c'

/-- Python `str.strip()`: drop leading and trailing whitespace. -/
def pyStrip (s : String) : String :=
  String.mk (((s.data.dropWhile isPySpace).reverse.dropWhile isPySpace).reverse)

/-- Python `str.lower()` (ASCII case mapping). -/
def pyLower (s : String) : String :=
  String.mk (s.data.map Char.toLower)

/-- Worker for `pySplit`: scan left to right, cutting at each non-overlapping
occurrence of `sep`; the fuel (at least the input length) keeps the recursion
structural. -/
def pySplitAux (sep : List Char) : Nat → List Char → List Char → List (List Char)
  | 0, cs, acc => [acc.reverse ++ cs]
  | fuel + 1, cs, acc =>
    match dropSep sep cs with
    | some rem => acc.reverse :: pySplitAux sep fuel rem []
    | none =>
      match cs with
      | [] => [acc.reverse]
      | c :: rest => pySplitAux sep fuel rest (c :: acc)

/-- Python `str.split(sep)` for a non-empty separator: the fragments between
non-overlapping leftmost occurrences of `sep`, keeping empty fragments
(`"a```b```".split("```") = ["a", "b", ""]`). Always non-empty. -/
def pySplit (s sep : String) : List String :=
  (pySplitAux sep.data (s.length + 1) s.data []).map String.mk

/-!
## Structured response parsing (`generate_questions` lines 52-60,
`estimate_skill_levels` lines 110-114)
-/

/-- The parse chain of `generate_questions` (app.py lines 52-60): strict
decode of `raw`; on failure, strip surrounding whitespace, split on the
triple-backtick delimiter, take the last fragment and decode that; on failure
again, return the sentinel `{"Error": [raw]}` carrying the raw text. -/
def parse_model_output (raw : String) : Json :=
  match jsonDecode raw with
  | some j => j
  | none =>
    let cleaned := (pySplit (pyStrip raw) "```").getLast!
    match jsonDecode cleaned with
    | some j => j
    | none => Json.obj [("Error", Json.arr [Json.str raw])]

/-- The parse chain of `estimate_skill_levels` (app.py lines 110-114): strict
decode of `raw`; on failure the sentinel `{"Error": raw}` — this copy has no
code-fence fallback stage. -/
def parse_skill_output (raw : String) : Json :=
  match jsonDecode raw with
  | some j => j
  | none => Json.obj [("Error", Json.str raw)]

/-!
## Prompt builders (app.py lines 33-42, 64-71, 90-102)
-/

/-- Question-generation prompt template (app.py lines 33-42). -/
def questions_prompt (tech_stack : String) : String :=
  "\n    Candidate tech stack: " ++ tech_stack ++
  ".\n    For each technology, generate exactly 3 short interview questions in ENGLISH.\n    Respond strictly in JSON format like this:\n    \x7b\n      \"Python\": [\"Question1\", \"Question2\", \"Question3\"],\n      \"Django\": [\"Question1\", \"Question2\", \"Question3\"]\n    \x7d\n    No explanations, no extra text, only valid JSON.\n    "

/-- Chat-answer prompt template (app.py lines 64-71). -/
def chat_prompt (user_input : String) : String :=
  "\n    You are TalentScout Hiring Assistant.\n    Always answer clearly in English.\n    Do NOT repeat or rephrase the user question, only provide the best possible answer.\n\n    Question: " ++ user_input ++ "\n    Answer:\n    "

/-- The answers block of `estimate_skill_levels` (app.py lines 83-88): the
Python comprehension keeps the turns whose role is "You", pairs each message
with an empty answer string via the inner `for q, a in [(msg, "")]` loop, and
renders each pair as `Q: {q}\nA: {a}`, joined with newlines. -/
def answers_block (qa_history : List (String × String)) : String :=
  String.intercalate "\n"
    (qa_history.foldr
      (fun p acc =>
        if p.1 = "You" then
          ([(p.2, "")].map (fun qa2 => "Q: " ++ qa2.1 ++ "\nA: " ++ qa2.2)) ++ acc
        else acc)
      [])

/-- Skill-estimation prompt template (app.py lines 90-102). -/
def skill_prompt (tech_stack : String) (answers : String) : String :=
  "\n    Candidate tech stack: " ++ tech_stack ++
  "\n    Candidate interview answers:\n    " ++ answers ++
  "\n\n    Based on the answers, estimate the candidate\x27s skill level for each technology \n    in this stack. Use only these labels: Beginner, Intermediate, Expert.\n    Respond strictly in JSON format like this:\n    \x7b\n      \"Python\": \"Intermediate\",\n      \"Django\": \"Beginner\"\n    \x7d\n    "

/-- `generate_questions` (app.py lines 31-60): build the prompt, call the
model, parse the raw text. Also returns the prompts sent to the model. -/
def generate_questions (llm : String → String) (tech_stack : String) : Json × List String :=
  let prompt := questions_prompt tech_stack
  (parse_model_output (llm prompt), [prompt])

/-- `chat_response` (app.py lines 62-79): build the chat prompt and return the
model's raw reply, together with the prompts sent. -/
def chat_response (llm : String → String) (user_input : String) : String × List String :=
  let prompt := chat_prompt user_input
  (llm prompt, [prompt])

/-- `estimate_skill_levels` (app.py lines 81-114): build the answers block and
the skill prompt, call the model, strict-parse the reply. Also returns the
prompts sent to the model. -/
def estimate_skill_levels (llm : String → String) (qa_history : List (String × String))
    (tech_stack : String) : Json × List String :=
  let prompt := skill_prompt tech_stack (answers_block qa_history)
  (parse_skill_output (llm prompt), [prompt])

/-!
## Session state and handlers
-/

/-- The candidate form record (app.py lines 160-168). -/
structure CandidateInfo where
  name : String
  email : String
  phone : String
  experience : Nat
  position : String
  location : String
  tech_stack : String
deriving Repr, DecidableEq

/-- `st.session_state` (app.py lines 136-143): `candidate_info` starts as the
empty dict, modelled as `none`; `skill_levels` starts as the empty dict. -/
structure SessionState where
  qa_history : List (String × String)
  candidate_info : Option CandidateInfo
  chat_input : String
  skill_levels : Json
deriving Repr

/-- `EXIT_KEYWORDS` (app.py line 8); a Python set, used only for membership. -/
def EXIT_KEYWORDS : List String := ["exit", "quit", "bye", "stop", "end"]

/-- The fixed farewell text appended on an exit keyword (app.py line 206). -/
def farewell_message : String :=
  "👋 Thank you for your time! We’ll contact you with next steps."

/-- The exit test of `process_input` (app.py lines 197-204), factored as the
spec's `isExit` contract: strip surrounding whitespace, lower-case, and test
membership in `EXIT_KEYWORDS`. -/
def isExit (text : String) : Bool :=
  decide (pyLower (pyStrip text) ∈ EXIT_KEYWORDS)

/-- `candidate_info.get("tech_stack")` truthiness source (app.py lines 175,
244): the empty dict yields the falsy empty string. -/
def candidate_tech_stack : Option CandidateInfo → String
  | none => ""
  | some ci => ci.tech_stack

/-- `process_input` (app.py lines 195-218): strip the chat input; return
unchanged on empty; on an exit keyword append the (stripped) user turn and the
fixed farewell and clear the input without calling the model; otherwise call
`chat_response` and append the user turn and the model reply. -/
def process_input (llm : String → String) (s : SessionState) : SessionState × List String :=
  let user_input := pyStrip s.chat_input
  if user_input = "" then (s, [])
  else
    let cleaned := pyLower user_input
    if cleaned ∈ EXIT_KEYWORDS then
      ({ s with
          qa_history := s.qa_history ++ [("You", user_input), ("Assistant", farewell_message)],
          chat_input := "" }, [])
    else
      let (final_response, calls) := chat_response llm user_input
      ({ s with
          qa_history := s.qa_history ++ [("You", user_input), ("Assistant", final_response)],
          chat_input := "" }, calls)

/-- The Clear Conversation handler (app.py lines 228-231): empty the
transcript and the skill levels; nothing else is touched. -/
def clear_conversation (s : SessionState) : SessionState :=
  { s with qa_history := [], skill_levels := Json.obj [] }

/-- `save_candidate` (app.py lines 20-29): read the store file (a missing file
recovers as the empty array), append the record, write the array back. The
store argument is the decoded content of the file, `none` when the file does
not exist; the result is the array written back. -/
def save_candidate (store : Option (List Json)) (data : Json) : List Json :=
  let db :=
    match store with
    | none => []
    | some db => db
  db ++ [data]

/-- The Estimate Skill Levels button handler (app.py lines 243-253): only when
the transcript is non-empty and the declared tech stack is non-empty does it
call `estimate_skill_levels` and overwrite `skill_levels`; otherwise it shows
a warning (the returned flag) and changes nothing. -/
def estimate_button (llm : String → String) (s : SessionState) :
    SessionState × List String × Bool :=
  if s.qa_history ≠ [] ∧ candidate_tech_stack s.candidate_info ≠ "" then
    let (result, calls) :=
      estimate_skill_levels llm s.qa_history (candidate_tech_stack s.candidate_info)
    ({ s with skill_levels := result }, calls, false)
  else
    (s, [], true)

/-!
## Helper lemmas
-/

/-- The line list folded up by `answers_block` is the filter of the "You"
turns, each rendered with the empty answer. -/
theorem answers_lines_eq (qa : List (String × String)) :
    qa.foldr
        (fun p acc =>
          if p.1 = "You" then
            ([(p.2, "")].map (fun qa2 => "Q: " ++ qa2.1 ++ "\nA: " ++ qa2.2)) ++ acc
          else acc)
        [] =
      (qa.filter fun p => p.1 = "You").map fun p => "Q: " ++ p.2 ++ "\nA: " := by
  induction qa with
  | nil => rfl
  | cons p t ih =>
    rw [List.foldr_cons, ih]
    by_cases h : p.1 = "You"
    · simp [h, String.append_empty]
    · simp [h]

/-- The answers block equals the join of the user ("You") turns, each rendered
with an empty answer. -/
theorem answers_block_eq (qa : List (String × String)) :
    answers_block qa =
      String.intercalate "\n"
        ((qa.filter fun p => p.1 = "You").map fun p => "Q: " ++ p.2 ++ "\nA: ") := by
  unfold answers_block
  rw [answers_lines_eq]

/-- Rewriting the text of every non-"You" turn arbitrarily does not change the
answers block. -/
theorem answers_block_assistant_invariant (qa : List (String × String))
    (g : String × String → String) :
    answers_block (qa.map fun p => if p.1 = "You" then p else (p.1, g p)) = answers_block qa := by
  rw [answers_block_eq, answers_block_eq]
  congr 1
  induction qa with
  | nil => rfl
  | cons p t ih =>
    by_cases h : p.1 = "You"
    · simp [h, ih]
    · simp [h, ih]

/-!
## Claims
-/

/-- C3: for every raw string that strict JSON decoding accepts as an object,
both parse chains return that decoded mapping directly — the fallback stage is
never reached. -/
theorem C3_valid_json_direct (raw : String) (kvs : List (String × Json))
    (h : jsonDecode raw = some (Json.obj kvs)) :
    parse_model_output raw = Json.obj kvs ∧ parse_skill_output raw = Json.obj kvs := by
  constructor
  · simp [parse_model_output, h]
  · simp [parse_skill_output, h]

/-- C3 witness: a concrete valid JSON object decodes directly through both
parse chains. -/
theorem C3_witness :
    jsonDecode "\x7b\"a\": 1\x7d" = some (Json.obj [("a", Json.num 1)]) ∧
      parse_model_output "\x7b\"a\": 1\x7d" = Json.obj [("a", Json.num 1)] ∧
      parse_skill_output "\x7b\"a\": 1\x7d" = Json.obj [("a", Json.num 1)] :=
  ⟨rfl, (C3_valid_json_direct "\x7b\"a\": 1\x7d" [("a", Json.num 1)] rfl).1,
    (C3_valid_json_direct "\x7b\"a\": 1\x7d" [("a", Json.num 1)] rfl).2⟩

/-- C2: when strict decoding of the raw string fails and strict decoding of
the last code-fence fragment also fails (so the string contains no valid JSON
the parser can find), both parse chains return their failure sentinel with the
original raw string embedded verbatim — unchanged and untruncated. -/
theorem C2_failure_preserves_raw (raw : String)
    (h1 : jsonDecode raw = none)
    (h2 : jsonDecode ((pySplit (pyStrip raw) "```").getLast!) = none) :
    parse_model_output raw = Json.obj [("Error", Json.arr [Json.str raw])] ∧
      parse_skill_output raw = Json.obj [("Error", Json.str raw)] := by
  constructor
  · simp [parse_model_output, h1, h2]
  · simp [parse_skill_output, h1]

/-- C2 witness: a concrete string with no JSON anywhere round-trips verbatim
into both failure sentinels. -/
theorem C2_witness :
    jsonDecode "hello" = none ∧
      jsonDecode ((pySplit (pyStrip "hello") "```").getLast!) = none ∧
      parse_model_output "hello" = Json.obj [("Error", Json.arr [Json.str "hello"])] ∧
      parse_skill_output "hello" = Json.obj [("Error", Json.str "hello")] :=
  ⟨rfl, rfl, (C2_failure_preserves_raw "hello" rfl rfl).1,
    (C2_failure_preserves_raw "hello" rfl rfl).2⟩

/-- C1 counterexample: the raw string `Note: ```{"a": 1}``` Done` is exactly
of the claimed form `<prose> ```<json>``` <trailing>` with a valid fenced JSON
fragment, yet `parse` returns the failure sentinel, not the decoded fenced
mapping: splitting on the triple-backtick delimiter makes the *trailing* text
the last fragment, so the fenced JSON is never decoded. -/
theorem C1_counterexample :
    jsonDecode "\x7b\"a\": 1\x7d" = some (Json.obj [("a", Json.num 1)]) ∧
      parse_model_output "Note: ```\x7b\"a\": 1\x7d``` Done" =
        Json.obj [("Error", Json.arr [Json.str "Note: ```\x7b\"a\": 1\x7d``` Done"])] ∧
      Json.obj [("Error", Json.arr [Json.str "Note: ```\x7b\"a\": 1\x7d``` Done"])] ≠
        Json.obj [("a", Json.num 1)] :=
  ⟨rfl, rfl, by simp⟩

/-- C1 amended: stage two of `generate_questions`' parse chain decodes the
*last* triple-backtick fragment of the whitespace-stripped raw string, so it
succeeds exactly when that final fragment is valid JSON — e.g. for
`<prose> ```<json>` with no closing fence. (The copy in
`estimate_skill_levels` has no fenced fallback at all.) -/
theorem C1_fence_last_fragment (raw : String) (j : Json)
    (h1 : jsonDecode raw = none)
    (h2 : jsonDecode ((pySplit (pyStrip raw) "```").getLast!) = some j) :
    parse_model_output raw = j := by
  simp [parse_model_output, h1, h2]

/-- C1 witness: prose followed by an unclosed fenced JSON fragment decodes via
stage two. -/
theorem C1_witness :
    jsonDecode "Here: ```\x7b\"a\": 1\x7d" = none ∧
      jsonDecode ((pySplit (pyStrip "Here: ```\x7b\"a\": 1\x7d") "```").getLast!) =
        some (Json.obj [("a", Json.num 1)]) ∧
      parse_model_output "Here: ```\x7b\"a\": 1\x7d" = Json.obj [("a", Json.num 1)] :=
  ⟨rfl, rfl, C1_fence_last_fragment "Here: ```\x7b\"a\": 1\x7d" (Json.obj [("a", Json.num 1)]) rfl rfl⟩

/-- C4 counterexample: the submitted text `"  quit"` is an exit keyword after
trimming and case folding, but the turn appended to the transcript carries the
*stripped* text `"quit"`, not the literal submitted text `"  quit"`. -/
theorem C4_counterexample :
    pyLower (pyStrip "  quit") ∈ EXIT_KEYWORDS ∧
      (process_input (fun _ => "") ⟨[], none, "  quit", Json.obj []⟩).1.qa_history =
        [("You", "quit"), ("Assistant", farewell_message)] ∧
      ("quit" : String) ≠ "  quit" :=
  ⟨by decide, rfl, by decide⟩

/-- C4 amended: for every session state and model oracle, when the chat input
is an exit keyword after trimming and case folding, `process_input` appends
exactly two turns — the user's *trimmed* turn, then the fixed farewell from
the Assistant — clears the input box, leaves all other state unchanged, and
makes no model call. -/
theorem C4_exit_two_turns (llm : String → String) (s : SessionState)
    (h : pyLower (pyStrip s.chat_input) ∈ EXIT_KEYWORDS) :
    process_input llm s =
      ({ s with
          qa_history := s.qa_history ++
            [("You", pyStrip s.chat_input), ("Assistant", farewell_message)],
          chat_input := "" }, []) := by
  have hne : pyStrip s.chat_input ≠ "" := by
    intro he
    rw [he] at h
    exact absurd h (by decide)
  simp [process_input, hne, h]

/-- C4 witness: typing `quit` with the transcript already holding a turn. -/
theorem C4_witness :
    pyLower (pyStrip "quit") ∈ EXIT_KEYWORDS ∧
      process_input (fun _ => "ignored") ⟨[("You", "hi")], none, "quit", Json.obj []⟩ =
        (⟨[("You", "hi"), ("You", "quit"), ("Assistant", farewell_message)], none, "",
          Json.obj []⟩, []) :=
  ⟨by decide,
    C4_exit_two_turns (fun _ => "ignored") ⟨[("You", "hi")], none, "quit", Json.obj []⟩
      (by decide)⟩

/-- C5: `isExit` returns true exactly when its argument, stripped of
surrounding whitespace and lower-cased, is one of the five keywords
exit, quit, bye, stop, end; on every other string it returns false. -/
theorem C5_isExit_spec (text : String) :
    isExit text = true ↔
      (pyLower (pyStrip text) = "exit" ∨ pyLower (pyStrip text) = "quit" ∨
        pyLower (pyStrip text) = "bye" ∨ pyLower (pyStrip text) = "stop" ∨
        pyLower (pyStrip text) = "end") := by
  simp [isExit, EXIT_KEYWORDS]

/-- C6: for every session state, the Clear Conversation handler empties the
transcript and the skill estimate while leaving the candidate profile and the
chat input exactly as they were. -/
theorem C6_clear_frame (s : SessionState) :
    (clear_conversation s).qa_history = [] ∧
      (clear_conversation s).skill_levels = Json.obj [] ∧
      (clear_conversation s).candidate_info = s.candidate_info ∧
      (clear_conversation s).chat_input = s.chat_input :=
  ⟨rfl, rfl, rfl, rfl⟩

/-- C7: when the transcript is empty or the declared tech stack is empty, the
Estimate Skill Levels handler reports the precondition warning, changes no
session state, and makes no model call. -/
theorem C7_estimate_precondition (llm : String → String) (s : SessionState)
    (h : s.qa_history = [] ∨ candidate_tech_stack s.candidate_info = "") :
    estimate_button llm s = (s, [], true) := by
  have hc : ¬(s.qa_history ≠ [] ∧ candidate_tech_stack s.candidate_info ≠ "") := by
    rcases h with h | h
    · exact fun hcc => hcc.1 h
    · exact fun hcc => hcc.2 h
  unfold estimate_button
  rw [if_neg hc]

/-- C7 witness: a filled profile but an empty transcript triggers the warning
and leaves the stored skill estimate untouched. -/
theorem C7_witness :
    ((⟨[], some ⟨"Ada", "a@b.c", "1", 3, "Dev", "Paris", "Python"⟩, "", Json.str "old"⟩ :
        SessionState).qa_history = [] ∨
      candidate_tech_stack (⟨[], some ⟨"Ada", "a@b.c", "1", 3, "Dev", "Paris", "Python"⟩, "",
        Json.str "old"⟩ : SessionState).candidate_info = "") ∧
      estimate_button (fun _ => "reply")
          ⟨[], some ⟨"Ada", "a@b.c", "1", 3, "Dev", "Paris", "Python"⟩, "", Json.str "old"⟩ =
        (⟨[], some ⟨"Ada", "a@b.c", "1", 3, "Dev", "Paris", "Python"⟩, "", Json.str "old"⟩,
          [], true) :=
  ⟨Or.inl rfl,
    C7_estimate_precondition (fun _ => "reply")
      ⟨[], some ⟨"Ada", "a@b.c", "1", 3, "Dev", "Paris", "Python"⟩, "", Json.str "old"⟩
      (Or.inl rfl)⟩

/-- C8: appending a candidate record when the store file does not exist writes
the one-element array containing just that record; when the store decodes to
an array, the write appends the record at the end of that array. -/
theorem C8_save_append (data : Json) (db : List Json) :
    save_candidate none data = [data] ∧ save_candidate (some db) data = db ++ [data] :=
  ⟨rfl, rfl⟩

/-- C9: the answers block embedded in the skill-estimation prompt is built
exclusively from turns whose speaker is "You" — rewriting every other turn's
text arbitrarily leaves it unchanged — and it is exactly the "You" turns each
rendered as a question paired with an empty answer string. -/
theorem C9_answers_only_user_turns (qa : List (String × String))
    (g : String × String → String) :
    answers_block (qa.map fun p => if p.1 = "You" then p else (p.1, g p)) = answers_block qa ∧
      answers_block qa =
        String.intercalate "\n"
          ((qa.filter fun p => p.1 = "You").map fun p => "Q: " ++ p.2 ++ "\nA: ") :=
  ⟨answers_block_assistant_invariant qa g, answers_block_eq qa⟩

/-- C10: submitting a chat input that strips to the empty string leaves the
whole session state unchanged and makes no model call. -/
theorem C10_blank_input_noop (llm : String → String) (s : SessionState)
    (h : pyStrip s.chat_input = "") :
    process_input llm s = (s, []) := by
  simp [process_input, h]

/-- C10 witness: a whitespace-only input changes nothing. -/
theorem C10_witness :
    pyStrip "   " = "" ∧
      process_input (fun _ => "reply") ⟨[("You", "x")], none, "   ", Json.obj []⟩ =
        (⟨[("You", "x")], none, "   ", Json.obj []⟩, []) :=
  ⟨rfl,
    C10_blank_input_noop (fun _ => "reply") ⟨[("You", "x")], none, "   ", Json.obj []⟩ rfl⟩
